import Mathlib

/-!
Files-manager data-access wrappers

A shallow embedding of `src/utils/redis.js` (class `RedisClient`) and
`src/utils/db.js` (class `DBClient`).

Both classes forward to a third-party driver.  The driver is a parameter of the
embedding (`RedisDriver`, `MongoDriver`): a method of the wrapper is a function
that threads the driver state explicitly and resolves to `Except ε α`, a
rejected promise being `Except.error`.  Properties that speak about what the
store behind the driver keeps are settled on a reference store
(`redisStore`, `mongoStore`).
-/

namespace FilesManager

/-! ## JavaScript values that reach the wrappers -/

/-- A JavaScript number: an integer-valued number, a number that is not an
integer, an infinity, or `NaN`.  (`-0` is not told apart from `0`: both are
falsy and both have the string form `0`.) -/
inductive JSNum where
  | int (i : Int)
  | fraction (q : ℚ)
  | infinity (negative : Bool)
  | nan
  deriving DecidableEq, Repr

/-- The `value` argument of `RedisClient.set`
(`@param {string|number|boolean} value`). -/
inductive Value where
  | str (s : String)
  | num (n : JSNum)
  | bool (b : Bool)
  deriving DecidableEq, Repr

/-- The `duration` argument of `RedisClient.set` (`@param {number} [duration]`):
omitted, `null`, or a number. -/
inductive Duration where
  | undefined
  | null
  | num (n : JSNum)
  deriving DecidableEq, Repr

/-- JavaScript truthiness of a number: `0` and `NaN` are falsy. -/
def JSNum.truthy : JSNum → Bool
  | .int i => i != 0
  | .fraction q => q != 0
  | .infinity _ => true
  | .nan => false

/-- JavaScript truthiness of a duration argument, as tested by `if (duration)`. -/
def Duration.truthy : Duration → Bool
  | .undefined => false
  | .null => false
  | .num n => n.truthy

/-! ## The Redis driver -/

/-- A command handed to the driver: `client.GET(key)`, `client.SET(key, value)`,
`client.SETEX(key, duration, value)`, `client.DEL(key)`. -/
inductive Command where
  | GET (key : String)
  | SET (key : String) (value : Value)
  | SETEX (key : String) (duration : Duration) (value : Value)
  | DEL (key : String)
  deriving DecidableEq, Repr

/-- A reply of the driver, as the promisified callback resolves it:
`null`, a string, or a number. -/
inductive Reply where
  | null
  | str (s : String)
  | int (i : Int)
  deriving DecidableEq, Repr

/-- The driver object returned by `createClient()`: `send cmd st` runs one
command on the driver state `st` and gives the outcome (a reply, or the error
the callback was called with) and the next driver state. -/
structure RedisDriver (σ ε : Type) where
  send : Command → σ → Except ε Reply × σ

/-- The driver instrumented with the list of the commands it was sent, oldest
first. -/
def RedisDriver.traced {σ ε : Type} (d : RedisDriver σ ε) :
    RedisDriver (σ × List Command) ε where
  send cmd st := ((d.send cmd st.1).1, ((d.send cmd st.1).2, st.2 ++ [cmd]))

/-! ## `RedisClient` (src/utils/redis.js) -/

/-- The error object passed to the `'error'` handler: its `message` property
(absent on a non-`Error` value) and what `toString()` gives. -/
structure RedisError where
  message : Option String
  asString : String
  deriving DecidableEq, Repr

/-- The fields of a `RedisClient` instance: `this.client`, `this.isConnected`. -/
structure RedisClient (σ : Type) where
  client : σ
  isConnected : Bool

/-- An event the driver emits to the handlers registered by the constructor. -/
inductive Event where
  | connect
  | error (err : RedisError)
  deriving DecidableEq, Repr

/-- Constructor `new RedisClient()`: `this.client = createClient(); this.isConnected = true`. -/
def RedisClient.new {σ : Type} (createClient : σ) : RedisClient σ :=
  { client := createClient, isConnected := true }

/-- The expression `err.message || err.toString()`. -/
def RedisError.text (err : RedisError) : String :=
  match err.message with
  | some m => if m = "" then err.asString else m
  | none => err.asString

/-- The `'error'` handler: logs a line on `console.error` and clears the flag.
Returns the instance and the line logged. -/
def RedisClient.onError {σ : Type} (self : RedisClient σ) (err : RedisError) :
    RedisClient σ × String :=
  ({ self with isConnected := false }, "Redis client connection error: " ++ err.text)

/-- The `'connect'` handler: sets the flag. -/
def RedisClient.onConnect {σ : Type} (self : RedisClient σ) : RedisClient σ :=
  { self with isConnected := true }

/-- The instance together with what has been written to `console.error`. -/
structure Running (σ : Type) where
  self : RedisClient σ
  stderr : List String

/-- Delivery of one driver event to the registered handler. -/
def Running.deliver {σ : Type} (r : Running σ) : Event → Running σ
  | .connect => { r with self := r.self.onConnect }
  | .error err =>
    { self := (r.self.onError err).1, stderr := r.stderr ++ [(r.self.onError err).2] }

/-- Delivery of a finite sequence of events, in order, to a freshly constructed
client. -/
def deliverAll {σ : Type} (createClient : σ) (events : List Event) : Running σ :=
  events.foldl Running.deliver { self := RedisClient.new createClient, stderr := [] }

/-- Method `isAlive()`: `return this.isConnected`.  The second component is the
instance after the call. -/
def RedisClient.isAlive {σ : Type} (self : RedisClient σ) : Bool × RedisClient σ :=
  (self.isConnected, self)

/-- Method `async get(key)`: `return promisify(this.client.GET).bind(this.client)(key)`. -/
def RedisClient.get {σ ε : Type} (drv : RedisDriver σ ε) (self : RedisClient σ)
    (key : String) : Except ε Reply × RedisClient σ :=
  ((drv.send (.GET key) self.client).1,
    { self with client := (drv.send (.GET key) self.client).2 })

/-- Method `async set(key, value, duration)`: awaits `SETEX(key, duration, value)` in
the `if (duration)` branch and `SET(key, value)` in the `else` branch, and
resolves to `undefined`.  An omitted third argument is `Duration.undefined`. -/
def RedisClient.set {σ ε : Type} (drv : RedisDriver σ ε) (self : RedisClient σ)
    (key : String) (value : Value) (duration : Duration) :
    Except ε Unit × RedisClient σ :=
  if duration.truthy then
    (((drv.send (.SETEX key duration value) self.client).1).map (fun _ => ()),
      { self with client := (drv.send (.SETEX key duration value) self.client).2 })
  else
    (((drv.send (.SET key value) self.client).1).map (fun _ => ()),
      { self with client := (drv.send (.SET key value) self.client).2 })

/-- Method `async del(key)`: awaits `DEL(key)` and resolves to `undefined`. -/
def RedisClient.del {σ ε : Type} (drv : RedisDriver σ ε) (self : RedisClient σ)
    (key : String) : Except ε Unit × RedisClient σ :=
  (((drv.send (.DEL key) self.client).1).map (fun _ => ()),
    { self with client := (drv.send (.DEL key) self.client).2 })

/-! ## The store behind the Redis driver -/

/-- Modelled from the spec: the string the third-party driver (not part of the
repository) sends to the store for a value argument, `String(value)`; the store
keeps strings only.  `numberToString` is the string form `String(n)` of a
number, which is the JavaScript engine's and is a parameter. -/
def Value.wire (numberToString : JSNum → String) : Value → String
  | .str s => s
  | .num n => numberToString n
  | .bool true => "true"
  | .bool false => "false"

/-- Modelled from the spec: the string the driver sends to the store for the
duration argument of `SETEX`, `String(duration)`.  An omitted or `null`
duration is falsy, so `set` never hands one to `SETEX`; neither string is an
integer. -/
def Duration.wire (numberToString : JSNum → String) : Duration → String
  | .undefined => "undefined"
  | .null => "null"
  | .num n => numberToString n

/-- The string form of the numbers of the concrete scenarios: `String(n)` for
`NaN`, the infinities and every integer of magnitude below `10^21`, which
JavaScript writes as a decimal numeral.  The other numbers (fractions, larger
magnitudes), which JavaScript writes in shortest round-trip or exponent form,
are not rendered and give the empty string; no scenario uses them. -/
def scenarioToString : JSNum → String
  | .int i => if i.natAbs < 10 ^ 21 then toString i else ""
  | .fraction _ => ""
  | .infinity false => "Infinity"
  | .infinity true => "-Infinity"
  | .nan => "NaN"

/-- The number written by a list of decimal digits. -/
def digitsValue (digits : List Char) : Nat :=
  digits.foldl (fun acc c => 10 * acc + (c.toNat - 48)) 0

/-- The positive number written by a decimal numeral with no sign and no
leading zero, if the characters are one. -/
def parsePositive (chars : List Char) : Option Nat :=
  match chars with
  | [] => none
  | c :: rest =>
    if c ≠ '0' ∧ c.isDigit = true ∧ rest.all Char.isDigit = true then
      some (digitsValue (c :: rest))
    else none

/-- Modelled from the spec: how the store reads an integer argument: `0`, or
an optional `-` followed by a decimal numeral with no leading zero, within the
range of a signed 64-bit integer. -/
def parseInteger (text : String) : Option Int :=
  match text.data with
  | ['0'] => some 0
  | '-' :: chars =>
    match parsePositive chars with
    | some n => if n ≤ 9223372036854775808 then some (-(n : Int)) else none
    | none => none
  | chars =>
    match parsePositive chars with
    | some n => if n ≤ 9223372036854775807 then some (n : Int) else none
    | none => none

/-- Modelled from the spec: the key-value store that the third-party driver
talks to (not part of the repository).  A store state is the store clock, in
seconds, and for every key the string kept under it together with the instant
at which it expires, if it was stored with a time-to-live ("TTL: seconds after
which a stored key-value entry automatically becomes inaccessible, enforced by
the store itself").  Values are kept as strings: `get` resolves to
`string|null` (JSDoc of `get` in src/utils/redis.js). -/
structure Store where
  now : Nat
  entries : String → Option (String × Option Nat)

/-- The store with no key, at clock `0`. -/
def Store.empty : Store :=
  { now := 0, entries := fun _ => none }

/-- The entry under `key`, unless it has expired. -/
def Store.lookup (s : Store) (key : String) : Option String :=
  match s.entries key with
  | none => none
  | some (v, none) => some v
  | some (v, some deadline) => if s.now < deadline then some v else none

/-- The store with `entry` under `key` and every other key as before. -/
def Store.put (s : Store) (key : String) (entry : Option (String × Option Nat)) : Store :=
  { s with entries := fun k => if k = key then entry else s.entries k }

/-- The store after `secs` seconds have passed. -/
def Store.elapse (s : Store) (secs : Nat) : Store :=
  { s with now := s.now + secs }

/-- Modelled from the spec: execution of one command, as sent by the driver, by
the store.  `GET` replies the live string or `null`; `SET` stores with no
expiry; `SETEX` reads the string sent for the duration as an integer number of
seconds and stores with that time-to-live when it is positive and not above
`maxSeconds`, the largest time-to-live the store accepts, and is an error
otherwise; `DEL` removes the key and replies how many keys it removed, `0`
when the key does not exist. -/
def Store.exec (numberToString : JSNum → String) (maxSeconds : Nat) (cmd : Command)
    (s : Store) : Except String Reply × Store :=
  match cmd with
  | .GET key =>
    match s.lookup key with
    | some v => (.ok (.str v), s)
    | none => (.ok .null, s)
  | .SET key value => (.ok (.str "OK"), s.put key (some (value.wire numberToString, none)))
  | .SETEX key duration value =>
    match parseInteger (duration.wire numberToString) with
    | some secs =>
      if 0 < secs ∧ secs ≤ (maxSeconds : Int) then
        (.ok (.str "OK"),
          s.put key (some (value.wire numberToString, some (s.now + secs.toNat))))
      else (.error "ERR invalid expire time in setex", s)
    | none => (.error "ERR value is not an integer or out of range", s)
  | .DEL key =>
    match s.lookup key with
    | some _ => (.ok (.int 1), s.put key none)
    | none => (.ok (.int 0), s.put key none)

/-- The reference driver: every command is executed by the store. -/
def redisStore (numberToString : JSNum → String) (maxSeconds : Nat) :
    RedisDriver Store String where
  send := Store.exec numberToString maxSeconds

/-- The reference driver of the concrete scenarios: numbers are written by
`scenarioToString`, and the largest time-to-live the store accepts is
`9223372036854775` seconds, the largest whose milliseconds fit a signed 64-bit
integer. -/
def scenarioStore : RedisDriver Store String :=
  redisStore scenarioToString 9223372036854775

/-- The instance after `secs` seconds have passed in the store. -/
def RedisClient.elapse (self : RedisClient Store) (secs : Nat) : RedisClient Store :=
  { self with client := self.client.elapse secs }

/-- JavaScript strict equality `reply === value` between what `get` resolved to
and a value given to `set`. -/
def Reply.strictEq : Reply → Value → Bool
  | .str s, .str t => s == t
  | .int i, .num (.int j) => i == j
  | .int i, .num (.fraction q) => (i : ℚ) == q
  | _, _ => false

/-! ## `DBClient` (src/utils/db.js) -/

/-- The process environment `process.env`: a variable is unset or has a string
value. -/
abbrev Env := String → Option String

/-- The expression `process.env.X || dflt` for a string default: the
default is taken when the variable is unset or empty. -/
def orDefault (v : Option String) (dflt : String) : String :=
  match v with
  | some s => if s = "" then dflt else s
  | none => dflt

/-- The value of `port`: the string of the environment, or the number `27017`. -/
inductive Port where
  | str (s : String)
  | num (n : Nat)
  deriving DecidableEq, Repr

/-- The expression `process.env.DB_PORT || 27017`. -/
def portOrDefault (v : Option String) : Port :=
  match v with
  | some s => if s = "" then .num 27017 else .str s
  | none => .num 27017

/-- How a template literal renders the port. -/
def Port.render : Port → String
  | .str s => s
  | .num n => toString n

/-- The template literal built by the constructor from the three settings. -/
def dbURL (env : Env) : String :=
  "mongodb://" ++ orDefault (env "DB_HOST") "localhost" ++ ":"
    ++ (portOrDefault (env "DB_PORT")).render ++ "/"
    ++ orDefault (env "DB_DATABASE") "files_manager"

/-- What `new mongodb.MongoClient(dbURL, options)` is given. -/
structure MongoClient where
  url : String
  useUnifiedTopology : Bool
  deriving DecidableEq, Repr

/-- The Mongo driver: `connect()` and `isConnected()` on the client, `db()`
and `collection(name)` resolving handles, and `countDocuments()` running the
count query on the driver state. -/
structure MongoDriver (σ ε δ κ : Type) where
  connect : MongoClient → σ → σ
  isConnected : MongoClient → σ → Bool
  db : MongoClient → δ
  collection : δ → String → κ
  countDocuments : κ → σ → Except ε Nat × σ

/-- The driver instrumented with the list of the collection handles a count
query was run on, oldest first. -/
def MongoDriver.traced {σ ε δ κ : Type} (d : MongoDriver σ ε δ κ) :
    MongoDriver (σ × List κ) ε δ κ where
  connect c st := (d.connect c st.1, st.2)
  isConnected c st := d.isConnected c st.1
  db := d.db
  collection := d.collection
  countDocuments h st := ((d.countDocuments h st.1).1, ((d.countDocuments h st.1).2, st.2 ++ [h]))

/-- The field of a `DBClient` instance: `this.client`. -/
structure DBClient where
  client : MongoClient
  deriving DecidableEq, Repr

/-- Constructor `new DBClient()`: runs `envLoader()` on the environment, builds the URL,
creates the driver client and starts connecting.  Gives the instance, the
environment after `envLoader()` and the driver state after `connect()`.
`envLoader` (`./env_loader`) is a parameter. -/
def DBClient.new {σ ε δ κ : Type} (drv : MongoDriver σ ε δ κ) (envLoader : Env → Env)
    (env : Env) (st : σ) : DBClient × Env × σ :=
  let loaded := envLoader env
  let client : MongoClient := { url := dbURL loaded, useUnifiedTopology := true }
  ({ client := client }, loaded, drv.connect client st)

/-- Method `isAlive()`: `return this.client.isConnected()`. -/
def DBClient.isAlive {σ ε δ κ : Type} (drv : MongoDriver σ ε δ κ) (self : DBClient)
    (st : σ) : Bool :=
  drv.isConnected self.client st

/-- Method `async nbUsers()`:
`return this.client.db().collection('users').countDocuments()`. -/
def DBClient.nbUsers {σ ε δ κ : Type} (drv : MongoDriver σ ε δ κ) (self : DBClient)
    (st : σ) : Except ε Nat × σ :=
  drv.countDocuments (drv.collection (drv.db self.client) "users") st

/-- Method `async nbFiles()`:
`return this.client.db().collection('files').countDocuments()`. -/
def DBClient.nbFiles {σ ε δ κ : Type} (drv : MongoDriver σ ε δ κ) (self : DBClient)
    (st : σ) : Except ε Nat × σ :=
  drv.countDocuments (drv.collection (drv.db self.client) "files") st

/-- Method `async usersCollection()`: `return this.client.db().collection('users')`. -/
def DBClient.usersCollection {σ ε δ κ : Type} (drv : MongoDriver σ ε δ κ)
    (self : DBClient) : κ :=
  drv.collection (drv.db self.client) "users"

/-- Method `async filesCollection()`: `return this.client.db().collection('files')`. -/
def DBClient.filesCollection {σ ε δ κ : Type} (drv : MongoDriver σ ε δ κ)
    (self : DBClient) : κ :=
  drv.collection (drv.db self.client) "files"

/-- Modelled from the spec: the document database that the third-party driver
talks to (not part of the repository): for every collection name, the documents
of that collection ("a database storing schema-flexible records grouped into
named collections"). -/
abbrev Database (Doc : Type) := String → List Doc

/-- Modelled from the spec: the reference Mongo driver.  A collection handle is
the collection name, and `countDocuments()` with no filter is the number of
documents of that collection ("the exact number of documents present in the
respective collection at call time"). -/
def mongoStore (Doc : Type) : MongoDriver (Database Doc) String Unit String where
  connect _ st := st
  isConnected _ _ := true
  db _ := ()
  collection _ name := name
  countDocuments name st := (.ok (st name).length, st)

/-- The URL in the words of the specification: each setting is the value of
its variable when the variable is set, and the default when it is not. -/
def specURL (env : Env) : String :=
  "mongodb://" ++ (env "DB_HOST").getD "localhost" ++ ":"
    ++ (env "DB_PORT").getD (toString 27017) ++ "/"
    ++ (env "DB_DATABASE").getD "files_manager"

/-- The environment in which every variable set to the empty string counts as
unset. -/
def dropEmpty (env : Env) : Env :=
  fun name => if env name = some "" then none else env name

/-- An operation surfaces the outcome of its driver call: when the driver call
fails with an error the operation fails with that same error, and when the
driver call succeeds the operation succeeds. -/
def Surfaces {ε α β : Type} (driverCall : Except ε α) (operation : Except ε β) : Prop :=
  (∀ e : ε, driverCall = .error e → operation = .error e) ∧
    (∀ a : α, driverCall = .ok a → ∃ b : β, operation = .ok b)

/-- A driver whose every command fails with `"connection lost"`. -/
def downDriver : RedisDriver Unit String where
  send _ st := (.error "connection lost", st)

end FilesManager

namespace FilesManager

/-! ## Liveness flag -/

theorem deliverAll_concat {σ : Type} (createClient : σ) (events : List Event) (e : Event) :
    deliverAll createClient (events ++ [e]) = (deliverAll createClient events).deliver e := by
  simp [deliverAll, List.foldl_append]

theorem isAlive_deliver {σ : Type} (r : Running σ) (e : Event) :
    (r.deliver e).self.isAlive.1 =
      match e with
      | .connect => true
      | .error _ => false := by
  cases e <;> rfl

/-- C1: for every finite sequence of `connect` and `error` events delivered to
a freshly constructed client, `isAlive()` is `true` when the sequence is empty
or ends with `connect`, and `false` when it ends with `error`; events before
the last one do not matter. -/
theorem isAlive_last_event_wins {σ : Type} (createClient : σ) (events : List Event) :
    ((deliverAll createClient events).self.isAlive.1 =
        match events.getLast? with
        | none => true
        | some .connect => true
        | some (.error _) => false) ∧
      (∀ (earlier : List Event) (e : Event),
        (deliverAll createClient (earlier ++ [e])).self.isAlive.1 =
          (deliverAll createClient [e]).self.isAlive.1) := by
  constructor
  · rcases List.eq_nil_or_concat events with h | ⟨init, e, h⟩
    · subst h; rfl
    · subst h
      rw [List.concat_eq_append, deliverAll_concat, isAlive_deliver]
      cases e <;> simp
  · intro earlier e
    rw [deliverAll_concat, isAlive_deliver]
    cases e <;> rfl

/-! ## Key-value operations on the reference store -/

theorem Store.lookup_put_plain (s : Store) (key v : String) :
    (s.put key (some (v, none))).lookup key = some v := by
  simp [Store.lookup, Store.put]

theorem Store.lookup_put_none (s : Store) (key : String) :
    (s.put key none).lookup key = none := by
  simp [Store.lookup, Store.put]

theorem Store.lookup_put_deadline (s : Store) (key v : String) (deadline t : Nat) :
    ((s.put key (some (v, some deadline))).elapse t).lookup key =
      if s.now + t < deadline then some v else none := by
  simp [Store.lookup, Store.put, Store.elapse]

theorem Store.exec_get (numberToString : JSNum → String) (maxSeconds : Nat) (s : Store)
    (key : String) :
    (Store.exec numberToString maxSeconds (.GET key) s).1 =
      match s.lookup key with
      | some v => .ok (.str v)
      | none => .ok .null := by
  cases h : s.lookup key <;> simp [Store.exec, h]

theorem Store.exec_setex (numberToString : JSNum → String) (maxSeconds : Nat) (s : Store)
    (key : String) (duration : Duration) (value : Value) (e : Int)
    (hparse : parseInteger (duration.wire numberToString) = some e)
    (hpos : 0 < e) (hmax : e ≤ (maxSeconds : Int)) :
    Store.exec numberToString maxSeconds (.SETEX key duration value) s =
      (.ok (.str "OK"),
        s.put key (some (value.wire numberToString, some (s.now + e.toNat)))) := by
  simp [Store.exec, hparse, hpos, hmax]

/-- C2 (as amended): for every key, every value and every store state, `set(k, v)`
with no expiry succeeds and the `get(k)` that follows resolves to the string
form `String(v)` of `v`; for a string `v` that is `v` itself. -/
theorem set_then_get (numberToString : JSNum → String) (maxSeconds : Nat)
    (self : RedisClient Store) (key : String) (value : Value) :
    (RedisClient.set (redisStore numberToString maxSeconds) self key value .undefined).1
        = .ok () ∧
      (RedisClient.get (redisStore numberToString maxSeconds)
          (RedisClient.set (redisStore numberToString maxSeconds) self key value
            .undefined).2 key).1
        = .ok (.str (value.wire numberToString)) ∧
      (∀ s : String,
        (RedisClient.get (redisStore numberToString maxSeconds)
            (RedisClient.set (redisStore numberToString maxSeconds) self key (.str s)
              .undefined).2 key).1
          = .ok (.str s)) := by
  have h : ∀ v : Value,
      (RedisClient.get (redisStore numberToString maxSeconds)
          (RedisClient.set (redisStore numberToString maxSeconds) self key v
            .undefined).2 key).1
        = .ok (.str (v.wire numberToString)) := by
    intro v
    simp only [RedisClient.get, RedisClient.set, Duration.truthy, redisStore,
      Store.exec_get]
    simp [Store.exec, Store.lookup_put_plain]
  refine ⟨rfl, h value, fun s => h (.str s)⟩

/-- C2 (counterexample): after `set('k', 42)` on the empty store, `get('k')`
resolves to the string `'42'`, which is not strictly equal to the number `42`. -/
theorem set_then_get_number_gives_string :
    (RedisClient.get scenarioStore
        (RedisClient.set scenarioStore (RedisClient.new Store.empty) "k"
          (.num (.int 42)) .undefined).2 "k").1
      = .ok (.str "42") ∧
      Reply.strictEq (.str "42") (.num (.int 42)) = false :=
  ⟨rfl, rfl⟩

/-- C3 (as amended): for every key, value and store state and every expiry that
is a positive whole number `e` of seconds not above the largest time-to-live
the store accepts (a truthy duration whose string form the store reads as
`e`), `set(k, v, e)` succeeds, and a `get(k)` issued after `t` further seconds
of store time resolves to the string form `String(v)` of `v` while `t < e` and
to `null` once `e` seconds have elapsed. -/
theorem set_with_expiry (numberToString : JSNum → String) (maxSeconds : Nat)
    (self : RedisClient Store) (key : String) (value : Value) (duration : Duration)
    (e : Int) (htruthy : duration.truthy = true)
    (hparse : parseInteger (duration.wire numberToString) = some e)
    (hpos : 0 < e) (hmax : e ≤ (maxSeconds : Int)) :
    (RedisClient.set (redisStore numberToString maxSeconds) self key value duration).1
        = .ok () ∧
      ∀ t : Nat,
        (RedisClient.get (redisStore numberToString maxSeconds)
            ((RedisClient.set (redisStore numberToString maxSeconds) self key value
              duration).2.elapse t) key).1
          = if (t : Int) < e then .ok (.str (value.wire numberToString)) else .ok .null := by
  have hset : RedisClient.set (redisStore numberToString maxSeconds) self key value duration =
      (.ok (), { self with
        client := self.client.put key
          (some (value.wire numberToString, some (self.client.now + e.toNat))) }) := by
    simp [RedisClient.set, htruthy, redisStore,
      Store.exec_setex numberToString maxSeconds self.client key duration value e hparse hpos
        hmax, Except.map]
  rw [hset]
  refine ⟨rfl, fun t => ?_⟩
  simp only [RedisClient.get, RedisClient.elapse, redisStore, Store.exec_get,
    Store.lookup_put_deadline]
  by_cases ht : (t : Int) < e
  · have : self.client.now + t < self.client.now + e.toNat := by omega
    simp [ht, this]
  · have : ¬ self.client.now + t < self.client.now + e.toNat := by omega
    simp [ht, this]

/-- C3 (witness): the scenario `set("foo", "bar", 1)` on the empty store:
`get("foo")` is `"bar"` at once and `null` after one second. -/
theorem set_with_expiry_witness :
    (Duration.num (.int 1)).truthy = true ∧
      parseInteger ((Duration.num (.int 1)).wire scenarioToString) = some 1 ∧
      (RedisClient.get scenarioStore
          ((RedisClient.set scenarioStore (RedisClient.new Store.empty) "foo" (.str "bar")
            (.num (.int 1))).2.elapse 0) "foo").1 = .ok (.str "bar") ∧
      (RedisClient.get scenarioStore
          ((RedisClient.set scenarioStore (RedisClient.new Store.empty) "foo" (.str "bar")
            (.num (.int 1))).2.elapse 1) "foo").1 = .ok .null :=
  ⟨rfl, rfl,
    (set_with_expiry scenarioToString 9223372036854775 (RedisClient.new Store.empty) "foo"
      (.str "bar") (.num (.int 1)) 1 rfl rfl (by decide) (by decide)).2 0,
    (set_with_expiry scenarioToString 9223372036854775 (RedisClient.new Store.empty) "foo"
      (.str "bar") (.num (.int 1)) 1 rfl rfl (by decide) (by decide)).2 1⟩

/-- C3 (counterexample): after `set("foo", 42, 10)` on the empty store, the
immediate `get("foo")` resolves to the string `'42'`, which is not strictly
equal to the number `42`; and `set("foo", "bar", -1)` fails, the store refusing
the expiry, so that the immediate `get("foo")` resolves to `null`, not to
`"bar"`. -/
theorem set_with_expiry_not_every_input :
    ((RedisClient.get scenarioStore
          ((RedisClient.set scenarioStore (RedisClient.new Store.empty) "foo"
            (.num (.int 42)) (.num (.int 10))).2.elapse 0) "foo").1 = .ok (.str "42") ∧
        Reply.strictEq (.str "42") (.num (.int 42)) = false) ∧
      ((RedisClient.set scenarioStore (RedisClient.new Store.empty) "foo" (.str "bar")
          (.num (.int (-1)))).1.toBool = false ∧
        (RedisClient.get scenarioStore
          ((RedisClient.set scenarioStore (RedisClient.new Store.empty) "foo" (.str "bar")
            (.num (.int (-1)))).2.elapse 0) "foo").1 = .ok .null) :=
  ⟨⟨rfl, rfl⟩, ⟨rfl, rfl⟩⟩

/-- C4: for every key and every store state, whether or not the key is
present, `del(k)` succeeds and the `get(k)` that follows resolves to `null`. -/
theorem del_then_get (numberToString : JSNum → String) (maxSeconds : Nat)
    (self : RedisClient Store) (key : String) :
    (RedisClient.del (redisStore numberToString maxSeconds) self key).1 = .ok () ∧
      (RedisClient.get (redisStore numberToString maxSeconds)
          (RedisClient.del (redisStore numberToString maxSeconds) self key).2 key).1
        = .ok .null := by
  constructor
  · cases h : self.client.lookup key <;>
      simp [RedisClient.del, redisStore, Store.exec, h, Except.map]
  · simp only [RedisClient.get, RedisClient.del, redisStore, Store.exec_get]
    have h : (Store.exec numberToString maxSeconds (.DEL key) self.client).2
        = self.client.put key none := by
      cases h : self.client.lookup key <;> simp [Store.exec, h]
    rw [h, Store.lookup_put_none]

/-! ## Document counts -/

/-- C5: for every database state, `nbUsers()` resolves to the number of
documents of the collection `users` and `nbFiles()` to the number of documents
of the collection `files`; replacing the contents of every other collection
changes neither result. -/
theorem nbUsers_nbFiles_count {Doc : Type} (self : DBClient) (db : Database Doc) :
    (DBClient.nbUsers (mongoStore Doc) self db).1 = .ok (db "users").length ∧
      (DBClient.nbFiles (mongoStore Doc) self db).1 = .ok (db "files").length ∧
      (∀ other : Database Doc,
        (DBClient.nbUsers (mongoStore Doc) self
            (fun name => if name = "users" then db name else other name)).1
          = (DBClient.nbUsers (mongoStore Doc) self db).1) ∧
      (∀ other : Database Doc,
        (DBClient.nbFiles (mongoStore Doc) self
            (fun name => if name = "files" then db name else other name)).1
          = (DBClient.nbFiles (mongoStore Doc) self db).1) := by
  refine ⟨rfl, rfl, fun other => ?_, fun other => ?_⟩ <;>
    simp [DBClient.nbUsers, DBClient.nbFiles, mongoStore]

/-- C6: for every driver and every database state, `countDocuments()` on the
handle returned by `usersCollection()` is the result of `nbUsers()`, and
`countDocuments()` on the handle returned by `filesCollection()` is the result
of `nbFiles()`. -/
theorem collection_count_eq_nb {σ ε δ κ : Type} (drv : MongoDriver σ ε δ κ)
    (self : DBClient) (st : σ) :
    drv.countDocuments (DBClient.usersCollection drv self) st = DBClient.nbUsers drv self st ∧
      drv.countDocuments (DBClient.filesCollection drv self) st
        = DBClient.nbFiles drv self st :=
  ⟨rfl, rfl⟩

/-! ## Connection URL -/

theorem orDefault_eq_getD (env : Env) (name dflt : String) :
    orDefault (env name) dflt = ((dropEmpty env) name).getD dflt := by
  unfold orDefault dropEmpty
  cases h : env name with
  | none => simp
  | some v => by_cases hv : v = "" <;> simp [hv]

theorem portOrDefault_render (env : Env) :
    (portOrDefault (env "DB_PORT")).render = ((dropEmpty env) "DB_PORT").getD (toString 27017) := by
  unfold portOrDefault dropEmpty
  cases h : env "DB_PORT" with
  | none => simp [Port.render]
  | some v => by_cases hv : v = "" <;> simp [hv, Port.render]

theorem dbURL_eq_specURL_dropEmpty (env : Env) : dbURL env = specURL (dropEmpty env) := by
  unfold dbURL specURL
  rw [orDefault_eq_getD, orDefault_eq_getD, portOrDefault_render]

theorem dropEmpty_of_ne (env : Env) (name : String) (h : env name ≠ some "") :
    dropEmpty env name = env name := by
  simp [dropEmpty, h]

/-- C7 (as amended): for every environment (as left by `envLoader()`), the URL
the constructor gives to the driver is `mongodb://H:P/D`, where each of `H`,
`P`, `D` is the value of `DB_HOST`, `DB_PORT`, `DB_DATABASE` when that variable
is set to a non-empty string, and `localhost`, `27017`, `files_manager` when
it is unset or empty; with none of the three set the URL is
`mongodb://localhost:27017/files_manager`. -/
theorem dbURL_of_env {σ ε δ κ : Type} (drv : MongoDriver σ ε δ κ) (envLoader : Env → Env)
    (env : Env) (st : σ) :
    (DBClient.new drv envLoader env st).1.client.url = specURL (dropEmpty (envLoader env)) ∧
      (envLoader env "DB_HOST" ≠ some "" → envLoader env "DB_PORT" ≠ some "" →
        envLoader env "DB_DATABASE" ≠ some "" →
        (DBClient.new drv envLoader env st).1.client.url = specURL (envLoader env)) ∧
      (envLoader env "DB_HOST" = none → envLoader env "DB_PORT" = none →
        envLoader env "DB_DATABASE" = none →
        (DBClient.new drv envLoader env st).1.client.url
          = "mongodb://localhost:27017/files_manager") := by
  have hurl : (DBClient.new drv envLoader env st).1.client.url = dbURL (envLoader env) := rfl
  refine ⟨?_, ?_, ?_⟩
  · rw [hurl, dbURL_eq_specURL_dropEmpty]
  · intro hH hP hD
    rw [hurl, dbURL_eq_specURL_dropEmpty]
    unfold specURL
    rw [dropEmpty_of_ne _ _ hH, dropEmpty_of_ne _ _ hP, dropEmpty_of_ne _ _ hD]
  · intro hH hP hD
    rw [hurl]
    unfold dbURL
    rw [hH, hP, hD]
    decide

/-- C7 (witness): with `DB_HOST=db.local`, `DB_PORT=27018` and `DB_DATABASE`
unset, the URL is `mongodb://db.local:27018/files_manager`; with nothing set
it is `mongodb://localhost:27017/files_manager`. -/
theorem dbURL_of_env_witness :
    (DBClient.new (mongoStore Unit) id
        (fun name => if name = "DB_HOST" then some "db.local"
          else if name = "DB_PORT" then some "27018" else none)
        (fun _ => [])).1.client.url
      = "mongodb://db.local:27018/files_manager" ∧
      (DBClient.new (mongoStore Unit) id (fun _ => none) (fun _ => [])).1.client.url
        = "mongodb://localhost:27017/files_manager" :=
  ⟨((dbURL_of_env (mongoStore Unit) id
        (fun name => if name = "DB_HOST" then some "db.local"
          else if name = "DB_PORT" then some "27018" else none)
        (fun _ => [])).2.1 (by decide) (by decide) (by decide)).trans (by decide),
    (dbURL_of_env (mongoStore Unit) id (fun _ => none) (fun _ => [])).2.2 rfl rfl rfl⟩

/-- C7 (counterexample): with `DB_HOST` set to the empty string the URL built
is `mongodb://localhost:27017/files_manager`, not the URL `mongodb://:27017/files_manager`
made of the value of the variable. -/
theorem dbURL_empty_host_uses_default :
    (DBClient.new (mongoStore Unit) id
        (fun name => if name = "DB_HOST" then some "" else none) (fun _ => [])).1.client.url
      = "mongodb://localhost:27017/files_manager" ∧
      specURL (fun name => if name = "DB_HOST" then some "" else none)
        = "mongodb://:27017/files_manager" ∧
      (DBClient.new (mongoStore Unit) id
        (fun name => if name = "DB_HOST" then some "" else none) (fun _ => [])).1.client.url
      ≠ specURL (fun name => if name = "DB_HOST" then some "" else none) := by
  refine ⟨by decide, by decide, by decide⟩

/-! ## Error propagation and driver commands -/

theorem surfaces_self {ε α : Type} (r : Except ε α) : Surfaces r r :=
  ⟨fun _ h => h, fun a h => ⟨a, h⟩⟩

theorem surfaces_map {ε α β : Type} (r : Except ε α) (f : α → β) : Surfaces r (r.map f) := by
  constructor
  · intro e h; subst h; rfl
  · intro a h; subst h; exact ⟨f a, rfl⟩

/-- C8: each data operation (`get`, `set`, `del`, `nbUsers`, `nbFiles`) surfaces
the outcome of its driver call: it fails with the error the driver call failed
with, succeeds when the driver call succeeds, and hands the driver exactly one
command or count query (the trace grows by one entry). -/
theorem failures_surface {σ μ ε δ κ : Type} (drv : RedisDriver σ ε)
    (mongo : MongoDriver μ ε δ κ) (self : RedisClient (σ × List Command)) (db : DBClient)
    (st : μ × List κ) (key : String) (value : Value) (duration : Duration) :
    (Surfaces (drv.send (.GET key) self.client.1).1 (RedisClient.get drv.traced self key).1 ∧
        (RedisClient.get drv.traced self key).2.client.2 = self.client.2 ++ [.GET key]) ∧
      (Surfaces
          (drv.send (if duration.truthy then .SETEX key duration value else .SET key value)
            self.client.1).1
          (RedisClient.set drv.traced self key value duration).1 ∧
        (RedisClient.set drv.traced self key value duration).2.client.2
          = self.client.2 ++ [if duration.truthy then .SETEX key duration value
              else .SET key value]) ∧
      (Surfaces (drv.send (.DEL key) self.client.1).1 (RedisClient.del drv.traced self key).1 ∧
        (RedisClient.del drv.traced self key).2.client.2 = self.client.2 ++ [.DEL key]) ∧
      (Surfaces (mongo.countDocuments (mongo.collection (mongo.db db.client) "users") st.1).1
          (DBClient.nbUsers mongo.traced db st).1 ∧
        (DBClient.nbUsers mongo.traced db st).2.2
          = st.2 ++ [mongo.collection (mongo.db db.client) "users"]) ∧
      (Surfaces (mongo.countDocuments (mongo.collection (mongo.db db.client) "files") st.1).1
          (DBClient.nbFiles mongo.traced db st).1 ∧
        (DBClient.nbFiles mongo.traced db st).2.2
          = st.2 ++ [mongo.collection (mongo.db db.client) "files"]) := by
  refine ⟨⟨surfaces_self _, rfl⟩, ?_, ⟨surfaces_map _ _, rfl⟩, ⟨surfaces_self _, rfl⟩,
    ⟨surfaces_self _, rfl⟩⟩
  cases h : duration.truthy
  · simp only [RedisClient.set, h]
    exact ⟨surfaces_map _ _, rfl⟩
  · simp only [RedisClient.set, h]
    exact ⟨surfaces_map _ _, rfl⟩

/-- C8 (witness): on a driver whose commands fail with `"connection lost"`,
`get`, `set` and `del` fail with `"connection lost"`. -/
theorem failures_surface_witness :
    (RedisClient.get downDriver.traced (RedisClient.new ((), [])) "k").1
        = .error "connection lost" ∧
      (RedisClient.set downDriver.traced (RedisClient.new ((), [])) "k" (.str "v")
        (.num (.int 5))).1 = .error "connection lost" ∧
      (RedisClient.del downDriver.traced (RedisClient.new ((), [])) "k").1
        = .error "connection lost" :=
  ⟨(failures_surface downDriver (mongoStore Unit) (RedisClient.new ((), []))
      { client := { url := "", useUnifiedTopology := true } } (fun _ => [], []) "k" (.str "v")
      (.num (.int 5))).1.1.1 "connection lost" rfl,
    (failures_surface downDriver (mongoStore Unit) (RedisClient.new ((), []))
      { client := { url := "", useUnifiedTopology := true } } (fun _ => [], []) "k" (.str "v")
      (.num (.int 5))).2.1.1.1 "connection lost" rfl,
    (failures_surface downDriver (mongoStore Unit) (RedisClient.new ((), []))
      { client := { url := "", useUnifiedTopology := true } } (fun _ => [], []) "k" (.str "v")
      (.num (.int 5))).2.2.1.1.1 "connection lost" rfl⟩

/-- C9: for every key, value and duration, `set` hands the driver exactly one
command, `SETEX(key, duration, value)` when the duration is truthy and
`SET(key, value)` otherwise; with a duration of `0`, `null` or `NaN` it does
what `set(key, value)` does, and on the reference store the entry is then kept
with no expiry. -/
theorem set_issues_one_command {σ ε : Type} (drv : RedisDriver σ ε)
    (numberToString : JSNum → String) (maxSeconds : Nat)
    (self : RedisClient (σ × List Command)) (plain : RedisClient σ)
    (stored : RedisClient Store) (key : String) (value : Value) (duration : Duration) :
    (RedisClient.set drv.traced self key value duration).2.client.2
        = self.client.2 ++ [if duration.truthy then .SETEX key duration value
            else .SET key value] ∧
      RedisClient.set drv plain key value (.num (.int 0))
        = RedisClient.set drv plain key value .undefined ∧
      RedisClient.set drv plain key value .null
        = RedisClient.set drv plain key value .undefined ∧
      RedisClient.set drv plain key value (.num .nan)
        = RedisClient.set drv plain key value .undefined ∧
      (RedisClient.set (redisStore numberToString maxSeconds) stored key value
          (.num (.int 0))).2.client.entries key
        = some (value.wire numberToString, none) := by
  refine ⟨?_, rfl, rfl, rfl, ?_⟩
  · cases h : duration.truthy <;> simp only [RedisClient.set, h] <;> rfl
  · simp [RedisClient.set, Duration.truthy, JSNum.truthy, redisStore, Store.exec, Store.put]

/-- C10: `get`, `set` and `del` leave `isConnected` as it was, whatever the
outcome of the driver call; with the flag replaced by any value they give the
same result and leave the driver (state and commands received) the same, so
they forward also when `isAlive()` is `false`; and `isAlive()` returns the flag,
leaves the instance as it was and hands the driver no command. -/
theorem liveness_independent {σ ε : Type} (drv : RedisDriver σ ε)
    (self : RedisClient (σ × List Command)) (key : String) (value : Value)
    (duration : Duration) (flag : Bool) :
    ((RedisClient.get drv.traced self key).2.isConnected = self.isConnected ∧
        (RedisClient.set drv.traced self key value duration).2.isConnected
          = self.isConnected ∧
        (RedisClient.del drv.traced self key).2.isConnected = self.isConnected) ∧
      ((RedisClient.get drv.traced { self with isConnected := flag } key).1
          = (RedisClient.get drv.traced self key).1 ∧
        (RedisClient.get drv.traced { self with isConnected := flag } key).2.client
          = (RedisClient.get drv.traced self key).2.client) ∧
      ((RedisClient.set drv.traced { self with isConnected := flag } key value duration).1
          = (RedisClient.set drv.traced self key value duration).1 ∧
        (RedisClient.set drv.traced { self with isConnected := flag } key value duration).2.client
          = (RedisClient.set drv.traced self key value duration).2.client) ∧
      ((RedisClient.del drv.traced { self with isConnected := flag } key).1
          = (RedisClient.del drv.traced self key).1 ∧
        (RedisClient.del drv.traced { self with isConnected := flag } key).2.client
          = (RedisClient.del drv.traced self key).2.client) ∧
      (self.isAlive.1 = self.isConnected ∧ self.isAlive.2 = self ∧
        self.isAlive.2.client.2 = self.client.2) := by
  refine ⟨⟨rfl, ?_, rfl⟩, ⟨rfl, rfl⟩, ?_, ⟨rfl, rfl⟩, ⟨rfl, rfl, rfl⟩⟩
  · cases h : duration.truthy <;> simp only [RedisClient.set, h] <;> rfl
  · cases h : duration.truthy <;> simp only [RedisClient.set, h] <;> exact ⟨rfl, rfl⟩

end FilesManager
